import Mathlib

/-!
Shallow embedding of the interactive 3D globe visualization (scene host,
marker layer, animated connection-line layer) and proofs about it.

Numeric code is modelled over the real numbers: the sources compute with
`Math.sin`, `Math.cos`, `Math.sqrt` and ordinary arithmetic, which we embed
as `Real.sin`, `Real.cos`, `Real.sqrt` and field operations on `ℝ`.

Scene-graph objects are identified by natural-number ids (standing for
JavaScript object identity); the Globe Group's child list is a `List Nat`
of such ids.  The scene's top-level children are modelled by `TopNode`
(a grouping node with its child ids, a mesh, or a light), so that the
layers' structural search "first child that is a THREE.Group" is the
function `findGroup`.

Each Vue component's mutable refs become a state structure, and each
source function becomes a state-transforming Lean function translated
line by line from the corresponding script.
-/

namespace Globe

/-- 3D vector, as `THREE.Vector3` restricted to the operations the sources use. -/
structure Vector3 where
  x : ℝ
  y : ℝ
  z : ℝ

/-- `a.add(b)` componentwise addition. -/
def vadd (a b : Vector3) : Vector3 :=
  ⟨a.x + b.x, a.y + b.y, a.z + b.z⟩

/-- `a.sub(b)` componentwise subtraction. -/
def vsub (a b : Vector3) : Vector3 :=
  ⟨a.x - b.x, a.y - b.y, a.z - b.z⟩

/-- `v.multiplyScalar(r)` (also used for `divideScalar`, as `multiplyScalar (1/s)`,
which is how THREE implements it). -/
def vsmul (r : ℝ) (v : Vector3) : Vector3 :=
  ⟨r * v.x, r * v.y, r * v.z⟩

/-- `v.length()`: Euclidean norm. -/
noncomputable def norm3 (v : Vector3) : ℝ :=
  Real.sqrt (v.x ^ 2 + v.y ^ 2 + v.z ^ 2)

/-- `v.normalize()`.  THREE divides by `length() || 1`, so the zero vector is
left unchanged rather than producing a division by zero. -/
noncomputable def normalize3 (v : Vector3) : Vector3 :=
  if norm3 v = 0 then v else vsmul (1 / norm3 v) v

/-- `a.distanceTo(b)`. -/
noncomputable def distanceTo (a b : Vector3) : ℝ :=
  norm3 (vsub a b)

/-- `latLngToVector3(lat, lng, radius)`, defined identically in
`markers.vue` (src/unnamed/part_000 lines 21-37) and
`animated-lines.vue` (lines 28-44):
`phi = (90 - lat) * (PI/180)`, `theta = (lng + 180) * (PI/180)`,
`x = -radius*sin(phi)*cos(theta)`, `z = radius*sin(phi)*sin(theta)`,
`y = radius*cos(phi)`, returned as `Vector3(x, y, z)`. -/
noncomputable def latLngToVector3 (lat lng radius : ℝ) : Vector3 :=
  ⟨-radius * Real.sin ((90 - lat) * (Real.pi / 180)) *
      Real.cos ((lng + 180) * (Real.pi / 180)),
    radius * Real.cos ((90 - lat) * (Real.pi / 180)),
    radius * Real.sin ((90 - lat) * (Real.pi / 180)) *
      Real.sin ((lng + 180) * (Real.pi / 180))⟩

/-- `Location` prop record: `{ name, lat, lng }`. -/
structure Location where
  name : String
  lat : ℝ
  lng : ℝ

/-- `Connection` prop record: `{ from, to }`, each referencing a `Location.name`. -/
structure Connection where
  «from» : String
  «to» : String

/-- A top-level child of the scene: a grouping node (with the ids of its own
children), a mesh, or a light.  `scene.children.find(child => child instanceof
THREE.Group)` becomes `findGroup` below. -/
inductive TopNode where
  | group (children : List Nat)
  | mesh (id : Nat)
  | lightNode (id : Nat)

/-- The structural search both layers perform:
`scene.value.children.find((child) => child instanceof THREE.Group)`,
returning the child list of the first grouping node (the Globe Group). -/
def findGroup : List TopNode → Option (List Nat)
  | [] => none
  | TopNode.group cs :: _ => some cs
  | TopNode.mesh _ :: rest => findGroup rest
  | TopNode.lightNode _ :: rest => findGroup rest

/-- Write back a new child list into the first grouping node (the node the
structural search found and the layers then mutate in place). -/
def setGroup : List TopNode → List Nat → List TopNode
  | [], _ => []
  | TopNode.group _ :: rest, cs => TopNode.group cs :: rest
  | TopNode.mesh i :: rest, cs => TopNode.mesh i :: setGroup rest cs
  | TopNode.lightNode i :: rest, cs => TopNode.lightNode i :: setGroup rest cs

/-- Child ids of the first grouping node of an optional scene (empty when the
scene or the group is absent); used only to state theorems. -/
def groupChildrenOf (sc : Option (List TopNode)) : List Nat :=
  match sc with
  | none => []
  | some ch => (findGroup ch).getD []

/-! ### Marker layer (`markers.vue`, src/unnamed/part_000) -/

/-- One marker visual: the grouping node holding the small sphere mesh (whose
material color is the mutable hover-relevant state) and the point light,
positioned on the sphere surface.  `id` stands for object identity. -/
structure Marker where
  id : Nat
  position : Vector3
  sphereColor : String

/-- State of the marker layer: the injected scene ref, the `markers` ref,
the `hoveredMarker` ref, the document cursor, and the id supply standing for
fresh object identities. -/
structure MarkersState where
  scene : Option (List TopNode)
  markers : List Marker
  hoveredMarker : Option Nat
  cursor : String
  nextId : Nat

/-- The `props.locations.forEach` loop body of `createMarkers`: for each
location compute `latLngToVector3(lat, lng, 0.92)`, build the marker group
(sphere colored `#d5aa0f` plus light), `globeGroup.add(marker)` (append its id
to the group children) and `markers.value.push(marker)`. -/
noncomputable def addMarkers : List Location → Nat → List Nat → List Marker →
    List Nat × List Marker
  | [], _, gcs, ms => (gcs, ms)
  | l :: rest, nid, gcs, ms =>
      addMarkers rest (nid + 1) (gcs ++ [nid])
        (ms ++ [⟨nid, latLngToVector3 l.lat l.lng 0.92, "#d5aa0f"⟩])

/-- The markers the loop creates, starting from a given fresh id. -/
noncomputable def markersFrom : List Location → Nat → List Marker
  | [], _ => []
  | l :: rest, nid =>
      ⟨nid, latLngToVector3 l.lat l.lng 0.92, "#d5aa0f"⟩ :: markersFrom rest (nid + 1)

/-- `createMarkers` (src/unnamed/part_000 lines 39-89): no-op when the scene
ref is null; locate the Globe Group structurally, no-op when absent; remove
every previously created marker from the group (and dispose it); reset the
collection; then run the per-location creation loop. -/
noncomputable def createMarkers (locs : List Location) (s : MarkersState) :
    MarkersState :=
  match s.scene with
  | none => s
  | some children =>
    match findGroup children with
    | none => s
    | some gcs =>
      let gcs1 := s.markers.foldl (fun cs m => cs.erase m.id) gcs
      let r := addMarkers locs s.nextId gcs1 []
      { scene := some (setGroup children r.1)
        markers := r.2
        hoveredMarker := s.hoveredMarker
        cursor := s.cursor
        nextId := s.nextId + locs.length }

/-- The recolor step of `handleMarkerHover`: `const marker =
markers.value[index]; if (marker) { ... material.color.set(c) }` — recolors the
sphere of marker `i` when it exists, otherwise does nothing. -/
def recolorMarker (ms : List Marker) (i : Nat) (c : String) : List Marker :=
  match ms[i]? with
  | none => ms
  | some m => ms.set i { m with sphereColor := c }

/-- `handleMarkerHover(index, isHovered)` (src/unnamed/part_000 lines 135-155).
Note the source sets `hoveredMarker.value` and `document.body.style.cursor`
unconditionally, before looking the marker up; only the recolor is guarded by
the marker's existence. -/
def handleMarkerHover (i : Nat) (isHovered : Bool) (s : MarkersState) :
    MarkersState :=
  if isHovered then
    { s with
      hoveredMarker := some i
      cursor := "pointer"
      markers := recolorMarker s.markers i "#FFC857" }
  else
    { s with
      hoveredMarker := none
      cursor := "auto"
      markers := recolorMarker s.markers i "#d5aa0f" }

/-! ### Line layer (`animated-lines.vue`) -/

/-- One connection arc visual: the `THREE.Line` object (identified by `id`)
with its 51 sampled curve points; the connection's names are kept for
bookkeeping, mirroring the construction log. -/
structure LineArc where
  id : Nat
  fromName : String
  toName : String
  points : List Vector3

/-- Resolve a connection's endpoint names against the locations list, exactly
as `createLines` does with `props.locations.find((loc) => loc.name ===
connection.from)` and the analogous lookup for `to`; `none` when either
endpoint is unresolved (`if (!fromLocation || !toLocation) return`). -/
def resolveConn (locs : List Location) (c : Connection) :
    Option (Location × Location) :=
  match locs.find? (fun l => l.name == c.«from»),
        locs.find? (fun l => l.name == c.«to») with
  | some f, some t => some (f, t)
  | _, _ => none

/-- `QuadraticBezierCurve3.getPoint t` for control points `p0 p1 p2`:
`(1-t)^2 p0 + 2(1-t)t p1 + t^2 p2`. -/
noncomputable def bezierPoint (p0 p1 p2 : Vector3) (t : ℝ) : Vector3 :=
  vadd (vadd (vsmul ((1 - t) ^ 2) p0) (vsmul (2 * (1 - t) * t) p1))
    (vsmul (t ^ 2) p2)

/-- `curve.getPoints(n)`: the `n + 1` curve samples at `t = i / n`. -/
noncomputable def curveGetPoints (p0 p1 p2 : Vector3) (n : Nat) : List Vector3 :=
  (List.range (n + 1)).map (fun i : Nat => bezierPoint p0 p1 p2 ((i : ℝ) / (n : ℝ)))

/-- The geometry of one arc (animated-lines.vue lines 76-88): endpoints at
radius `0.92`, midpoint of the endpoints normalized and scaled to
`0.92 + distance * 0.15` as the Bezier control point, sampled into 51 points
(`getPoints(50)`). -/
noncomputable def arcPoints (f t : Location) : List Vector3 :=
  curveGetPoints (latLngToVector3 f.lat f.lng 0.92)
    (vsmul (0.92 + distanceTo (latLngToVector3 f.lat f.lng 0.92)
        (latLngToVector3 t.lat t.lng 0.92) * 0.15)
      (normalize3 (vsmul 0.5 (vadd (latLngToVector3 f.lat f.lng 0.92)
        (latLngToVector3 t.lat t.lng 0.92)))))
    (latLngToVector3 t.lat t.lng 0.92) 50

/-- Accumulator of the `props.connections.forEach` loop in `createLines`:
the Globe Group's child ids, the `lines` ref, the sparse `lineProgress`
array (a function from connection index to progress), and the fresh id
supply. -/
structure LinesBuild where
  groupChildren : List Nat
  lines : List LineArc
  lineProgress : Nat → ℝ
  nextId : Nat

/-- The `props.connections.forEach((connection, index) => ...)` loop of
`createLines` (animated-lines.vue lines 66-116): resolve both endpoint names,
silently skip the connection when either is unresolved, otherwise build the
arc, `globeGroup.add(line)`, push it onto `lines`, and set
`lineProgress.value[index] = 0`. -/
noncomputable def addLines (locs : List Location) :
    List Connection → Nat → LinesBuild → LinesBuild
  | [], _, b => b
  | c :: rest, i, b =>
    match resolveConn locs c with
    | none => addLines locs rest (i + 1) b
    | some (f, t) =>
        addLines locs rest (i + 1)
          { groupChildren := b.groupChildren ++ [b.nextId]
            lines := b.lines ++ [⟨b.nextId, c.«from», c.«to», arcPoints f t⟩]
            lineProgress := Function.update b.lineProgress i 0
            nextId := b.nextId + 1 }

/-- The arcs the loop creates, starting from a given fresh id. -/
noncomputable def arcsFrom (locs : List Location) :
    List Connection → Nat → List LineArc
  | [], _ => []
  | c :: rest, nid =>
    match resolveConn locs c with
    | none => arcsFrom locs rest nid
    | some (f, t) => ⟨nid, c.«from», c.«to», arcPoints f t⟩ :: arcsFrom locs rest (nid + 1)

/-- State of the line layer: the injected scene ref, the `lines` ref, the
sparse `lineProgress` array, the fresh id supply, and `pendingLoops`, the
number of self-rescheduling `animate` callback chains currently scheduled
via `requestAnimationFrame`.  Each call of `animate()` starts one such chain
(its body reschedules itself every frame and nothing in `createLines` cancels
a previous chain; `animationFrameId` only ever remembers the latest one). -/
structure LinesState where
  scene : Option (List TopNode)
  lines : List LineArc
  lineProgress : Nat → ℝ
  pendingLoops : Nat
  nextId : Nat

/-- `createLines` (animated-lines.vue lines 46-120): no-op when the scene ref
is null; locate the Globe Group structurally, no-op when absent; remove and
dispose every previously created line; reset the collection; run the
per-connection loop; finally call `animate()` unconditionally, which starts
one more self-rescheduling animation-frame chain. -/
noncomputable def createLines (locs : List Location) (conns : List Connection)
    (s : LinesState) : LinesState :=
  match s.scene with
  | none => s
  | some children =>
    match findGroup children with
    | none => s
    | some gcs =>
      let gcs1 := s.lines.foldl (fun cs l => cs.erase l.id) gcs
      let b := addLines locs conns 0 ⟨gcs1, [], s.lineProgress, s.nextId⟩
      { scene := some (setGroup children b.groupChildren)
        lines := b.lines
        lineProgress := b.lineProgress
        pendingLoops := s.pendingLoops + 1
        nextId := b.nextId }

/-! ### Scene host (`Globe.vue`)

`initScene` is asynchronous with exactly one suspension point, the awaited
texture load (`await textureLoader.loadAsync("/glob3d.jpg")`, line 101).
On the single-threaded event loop the code between suspension points runs
atomically: no watcher or child-layer callback can observe an intermediate
state inside a synchronous block.  The observable states are therefore the
state before `initScene`, the state when the texture load is awaited, and
the state after `initScene` returns; `initBlock1` and `initBlock2` are the
two synchronous blocks between them. -/

/-- Observable state of the scene host: the published scene ref (`scene` is
`provide`d to the children, so its value is the published handle) and
presence flags for the other refs `initScene` fills in. -/
structure HostState where
  sceneHandle : Option (List TopNode)
  cameraPresent : Bool
  rendererPresent : Bool
  controlsPresent : Bool

/-- Id of the globe sphere mesh created in the second block. -/
def sphereId : Nat := 0

/-- State before `initScene` runs: every ref is null. -/
def hostInit : HostState :=
  ⟨none, false, false, false⟩

/-- First synchronous block of `initScene` (Globe.vue lines 68-101, up to the
awaited texture load): create the scene (this sets the provided `scene` ref),
the camera and the renderer, then create the Globe Group and add it to the
scene — all before the suspension point. -/
def initBlock1 (_s : HostState) : HostState :=
  ⟨some [TopNode.group []], true, true, false⟩

/-- Second synchronous block of `initScene` (lines 102-155, after the texture
resolves): build the sphere mesh and add it to the Globe Group, add the
ambient and point lights to the scene, construct the orbit controls, render
once, schedule the camera framing, and start the render loop. -/
def initBlock2 (s : HostState) : HostState :=
  match s.sceneHandle with
  | none => s
  | some children =>
      { sceneHandle := some (setGroup children ((findGroup children).getD [] ++ [sphereId])
          ++ [TopNode.lightNode 1, TopNode.lightNode 2])
        cameraPresent := s.cameraPresent
        rendererPresent := s.rendererPresent
        controlsPresent := true }

/-- The three observable points of the initialization: before `initScene`,
at the texture-load suspension point, and after `initScene` returns. -/
inductive InitPhase where
  | beforeInit
  | afterSyncSetup
  | afterTextureLoad

/-- The scene-host state at each observable point. -/
def hostStateAt : InitPhase → HostState
  | InitPhase.beforeInit => hostInit
  | InitPhase.afterSyncSetup => initBlock1 hostInit
  | InitPhase.afterTextureLoad => initBlock2 (initBlock1 hostInit)

/-! ### Camera auto-framing (`focusOnMarkers`, Globe.vue lines 40-66) -/

/-- The camera state `focusOnMarkers` writes: `camera.position` and the point
the camera was last aimed at with `lookAt`. -/
structure Camera where
  position : Vector3
  lookTarget : Vector3

/-- The orbit-controls state `focusOnMarkers` writes: `controls.target`. -/
structure Controls where
  target : Vector3

/-- The state `focusOnMarkers` reads and writes: the `locations` prop and the
`camera` and `controls` refs. -/
structure FocusState where
  locations : List Location
  camera : Option Camera
  controls : Option Controls

/-- The inline unit-sphere projection of `focusOnMarkers` (lines 45-51):
`new THREE.Vector3(-sin(phi)*cos(theta), cos(phi), sin(phi)*sin(theta))`. -/
noncomputable def unitDirection (l : Location) : Vector3 :=
  ⟨-(Real.sin ((90 - l.lat) * (Real.pi / 180)) *
      Real.cos ((l.lng + 180) * (Real.pi / 180))),
    Real.cos ((90 - l.lat) * (Real.pi / 180)),
    Real.sin ((90 - l.lat) * (Real.pi / 180)) *
      Real.sin ((l.lng + 180) * (Real.pi / 180))⟩

/-- `focusOnMarkers` (Globe.vue lines 40-66): return immediately when the
locations list is empty or the controls ref is null; otherwise average the
unit directions of all locations (`reduce(add) / length`, with no
normalization of the average), scale the raw average by `2.74` into the
camera position, aim the camera at the origin, set the controls target to
the origin and update. -/
noncomputable def focusOnMarkers (s : FocusState) : FocusState :=
  if s.locations.isEmpty then s
  else
    match s.controls with
    | none => s
    | some _ =>
      let center := vsmul (1 / (s.locations.length : ℝ))
        ((s.locations.map unitDirection).foldl vadd ⟨0, 0, 0⟩)
      { locations := s.locations
        camera := s.camera.map (fun _ => ⟨vsmul 2.74 center, ⟨0, 0, 0⟩⟩)
        controls := some ⟨⟨0, 0, 0⟩⟩ }

/-! ### Concrete states used by closed theorems -/

/-- A marker-layer state with the scene and Globe Group present and no marker
built yet. -/
def emptyMarkersState : MarkersState :=
  ⟨some [TopNode.group []], [], none, "auto", 0⟩

/-- A line-layer state with the scene and Globe Group present and no line
built yet. -/
noncomputable def emptyLinesState : LinesState :=
  ⟨some [TopNode.group []], [], fun _ => 0, 0, 0⟩

/-- A marker-layer state holding exactly one already-built marker. -/
noncomputable def oneMarkerState : MarkersState :=
  ⟨some [TopNode.group [7]], [⟨7, ⟨1, 0, 0⟩, "#d5aa0f"⟩], none, "auto", 8⟩

/-- Locations `A` and `B`, as in the connection-skipping test of the spec. -/
noncomputable def demoLocationsAB : List Location :=
  [⟨"A", 0, 0⟩, ⟨"B", 10, 10⟩]

/-- The single connection `{from: A, to: C}` whose `to` is unresolved. -/
def demoConnAC : List Connection :=
  [⟨"A", "C"⟩]

/-- A focus state with a single location at the lat/lng origin, a constructed
camera (at its initial position, depth 2.5 on the view axis) and constructed
controls. -/
noncomputable def demoFocusState : FocusState :=
  ⟨[⟨"A", 0, 0⟩], some ⟨⟨0, 0, 2.5⟩, ⟨0, 0, 0⟩⟩, some ⟨⟨0, 0, 0⟩⟩⟩

/-! ## Helper lemmas -/

theorem findGroup_setGroup (ch : List TopNode) (cs gcs : List Nat)
    (h : findGroup ch = some gcs) : findGroup (setGroup ch cs) = some cs := by
  induction ch with
  | nil => simp [findGroup] at h
  | cons n rest ih =>
    cases n with
    | group g => simp [findGroup, setGroup]
    | mesh i =>
        simp only [findGroup, setGroup] at h ⊢
        exact ih h
    | lightNode i =>
        simp only [findGroup, setGroup] at h ⊢
        exact ih h

theorem foldl_erase_mem (ids : List Nat) :
    ∀ (gcs : List Nat) (a : Nat),
      a ∈ ids.foldl (fun cs i => cs.erase i) gcs → a ∈ gcs := by
  induction ids with
  | nil => intro gcs a h; simpa using h
  | cons i rest ih =>
    intro gcs a h
    rw [List.foldl_cons] at h
    exact List.erase_subset i gcs (ih (gcs.erase i) a h)

theorem foldl_erase_append (ids : List Nat) :
    ∀ gcs : List Nat, (∀ i ∈ ids, i ∉ gcs) → ids.Nodup →
      ids.foldl (fun cs i => cs.erase i) (gcs ++ ids) = gcs := by
  induction ids with
  | nil => intro gcs _ _; simp
  | cons i rest ih =>
    intro gcs hfresh hnd
    obtain ⟨hni, hndr⟩ := List.nodup_cons.mp hnd
    have h1 : (gcs ++ i :: rest).erase i = gcs ++ rest := by
      rw [List.erase_append_right _ (hfresh i (by simp))]
      simp
    rw [List.foldl_cons, h1]
    exact ih gcs (fun j hj => hfresh j (by simp [hj])) hndr

theorem list_set_self {α : Type} (l : List α) :
    ∀ (i : Nat) (a : α), l[i]? = some a → l.set i a = l := by
  induction l with
  | nil => intro i a h; simp at h
  | cons x xs ih =>
    intro i a h
    cases i with
    | zero => simp_all
    | succ j =>
        simp only [List.getElem?_cons_succ] at h
        simp [List.set_cons_succ, ih j a h]

/-! ### Marker layer lemmas -/

theorem addMarkers_spec (locs : List Location) :
    ∀ (nid : Nat) (gcs : List Nat) (ms : List Marker),
      addMarkers locs nid gcs ms =
        (gcs ++ (markersFrom locs nid).map Marker.id, ms ++ markersFrom locs nid) := by
  induction locs with
  | nil => intro nid gcs ms; simp [addMarkers, markersFrom]
  | cons l rest ih =>
    intro nid gcs ms
    simp [addMarkers, markersFrom, ih]

theorem markersFrom_length (locs : List Location) :
    ∀ nid, (markersFrom locs nid).length = locs.length := by
  induction locs with
  | nil => intro nid; simp [markersFrom]
  | cons l rest ih => intro nid; simp [markersFrom, ih]

theorem markersFrom_map_position (locs : List Location) :
    ∀ nid, (markersFrom locs nid).map Marker.position =
      locs.map (fun l => latLngToVector3 l.lat l.lng 0.92) := by
  induction locs with
  | nil => intro nid; simp [markersFrom]
  | cons l rest ih => intro nid; simp [markersFrom, ih]

theorem markersFrom_id_ge (locs : List Location) :
    ∀ nid m, m ∈ markersFrom locs nid → nid ≤ m.id := by
  induction locs with
  | nil => intro nid m h; simp [markersFrom] at h
  | cons l rest ih =>
    intro nid m h
    simp only [markersFrom, List.mem_cons] at h
    cases h with
    | inl h => subst h; exact le_refl nid
    | inr h => exact Nat.le_of_succ_le (ih (nid + 1) m h)

theorem markersFrom_ids_nodup (locs : List Location) :
    ∀ nid, ((markersFrom locs nid).map Marker.id).Nodup := by
  induction locs with
  | nil => intro nid; simp [markersFrom]
  | cons l rest ih =>
    intro nid
    simp only [markersFrom, List.map_cons, List.nodup_cons]
    refine ⟨?_, ih (nid + 1)⟩
    intro hmem
    obtain ⟨m, hm, hid⟩ := List.mem_map.mp hmem
    have := markersFrom_id_ge rest (nid + 1) m hm
    omega

/-- Unfolding of `createMarkers` when the scene and the Globe Group are
present. -/
theorem createMarkers_some (locs : List Location) (s : MarkersState)
    (ch : List TopNode) (gcs : List Nat)
    (h1 : s.scene = some ch) (h2 : findGroup ch = some gcs) :
    createMarkers locs s =
      { scene := some (setGroup ch
          (s.markers.foldl (fun cs m => cs.erase m.id) gcs
            ++ (markersFrom locs s.nextId).map Marker.id))
        markers := markersFrom locs s.nextId
        hoveredMarker := s.hoveredMarker
        cursor := s.cursor
        nextId := s.nextId + locs.length } := by
  obtain ⟨sc, ms, hm, cur, nid⟩ := s
  simp only at h1
  subst h1
  simp [createMarkers, h2, addMarkers_spec]

/-! ### Line layer lemmas -/

theorem addLines_spec (locs : List Location) :
    ∀ (conns : List Connection) (i : Nat) (b : LinesBuild),
      (addLines locs conns i b).lines = b.lines ++ arcsFrom locs conns b.nextId
      ∧ (addLines locs conns i b).groupChildren =
          b.groupChildren ++ (arcsFrom locs conns b.nextId).map LineArc.id
      ∧ (addLines locs conns i b).nextId =
          b.nextId + (arcsFrom locs conns b.nextId).length := by
  intro conns
  induction conns with
  | nil => intro i b; simp [addLines, arcsFrom]
  | cons c rest ih =>
    intro i b
    cases hres : resolveConn locs c with
    | none => simp [addLines, arcsFrom, hres, ih (i + 1) b]
    | some ft =>
      obtain ⟨f, t⟩ := ft
      obtain ⟨e1, e2, e3⟩ := ih (i + 1)
        { groupChildren := b.groupChildren ++ [b.nextId]
          lines := b.lines ++ [⟨b.nextId, c.«from», c.«to», arcPoints f t⟩]
          lineProgress := Function.update b.lineProgress i 0
          nextId := b.nextId + 1 }
      refine ⟨?_, ?_, ?_⟩
      · simp only [addLines, hres, e1, arcsFrom]
        simp
      · simp only [addLines, hres, e2, arcsFrom]
        simp
      · simp only [addLines, hres, e3, arcsFrom]
        simp
        omega

theorem arcsFrom_id_ge (locs : List Location) :
    ∀ (conns : List Connection) (nid : Nat) (a : LineArc),
      a ∈ arcsFrom locs conns nid → nid ≤ a.id := by
  intro conns
  induction conns with
  | nil => intro nid a h; simp [arcsFrom] at h
  | cons c rest ih =>
    intro nid a h
    cases hres : resolveConn locs c with
    | none =>
        rw [arcsFrom, hres] at h
        exact ih nid a h
    | some ft =>
        obtain ⟨f, t⟩ := ft
        rw [arcsFrom, hres] at h
        simp only [List.mem_cons] at h
        cases h with
        | inl h => subst h; exact le_refl nid
        | inr h => exact Nat.le_of_succ_le (ih (nid + 1) a h)

theorem arcsFrom_ids_nodup (locs : List Location) :
    ∀ (conns : List Connection) (nid : Nat),
      ((arcsFrom locs conns nid).map LineArc.id).Nodup := by
  intro conns
  induction conns with
  | nil => intro nid; simp [arcsFrom]
  | cons c rest ih =>
    intro nid
    cases hres : resolveConn locs c with
    | none => rw [arcsFrom, hres]; exact ih nid
    | some ft =>
        obtain ⟨f, t⟩ := ft
        rw [arcsFrom, hres]
        simp only [List.map_cons, List.nodup_cons]
        refine ⟨?_, ih (nid + 1)⟩
        intro hmem
        obtain ⟨a, ha, hid⟩ := List.mem_map.mp hmem
        have := arcsFrom_id_ge locs rest (nid + 1) a ha
        omega

theorem arcsFrom_names (locs : List Location) :
    ∀ (conns : List Connection) (nid : Nat),
      (arcsFrom locs conns nid).map (fun l => (l.fromName, l.toName)) =
        (conns.filter (fun c => (resolveConn locs c).isSome)).map
          (fun c => (c.«from», c.«to»)) := by
  intro conns
  induction conns with
  | nil => intro nid; simp [arcsFrom]
  | cons c rest ih =>
    intro nid
    cases hres : resolveConn locs c with
    | none => simp [arcsFrom, hres, List.filter_cons, ih nid]
    | some ft =>
        obtain ⟨f, t⟩ := ft
        simp [arcsFrom, hres, List.filter_cons, ih (nid + 1)]

theorem arcsFrom_map_points (locs : List Location) :
    ∀ (conns : List Connection) (nid nid2 : Nat),
      (arcsFrom locs conns nid).map LineArc.points =
        (arcsFrom locs conns nid2).map LineArc.points := by
  intro conns
  induction conns with
  | nil => intro nid nid2; simp [arcsFrom]
  | cons c rest ih =>
    intro nid nid2
    cases hres : resolveConn locs c with
    | none => rw [arcsFrom, arcsFrom, hres]; exact ih nid nid2
    | some ft =>
        obtain ⟨f, t⟩ := ft
        rw [arcsFrom, arcsFrom, hres]
        simp only [List.map_cons]
        rw [ih (nid + 1) (nid2 + 1)]

theorem arcsFrom_length_indep (locs : List Location) (conns : List Connection)
    (nid nid2 : Nat) :
    (arcsFrom locs conns nid).length = (arcsFrom locs conns nid2).length := by
  have h := arcsFrom_map_points locs conns nid nid2
  have := congrArg List.length h
  simpa using this

theorem arcsFrom_mem_points (locs : List Location) :
    ∀ (conns : List Connection) (nid : Nat) (a : LineArc),
      a ∈ arcsFrom locs conns nid → ∃ f t : Location, a.points = arcPoints f t := by
  intro conns
  induction conns with
  | nil => intro nid a h; simp [arcsFrom] at h
  | cons c rest ih =>
    intro nid a h
    cases hres : resolveConn locs c with
    | none => rw [arcsFrom, hres] at h; exact ih nid a h
    | some ft =>
        obtain ⟨f, t⟩ := ft
        rw [arcsFrom, hres] at h
        simp only [List.mem_cons] at h
        cases h with
        | inl h => exact ⟨f, t, by rw [h]⟩
        | inr h => exact ih (nid + 1) a h

/-- Unfolding of `createLines` when the scene and the Globe Group are
present, stated on the projections the claims need. -/
theorem createLines_some (locs : List Location) (conns : List Connection)
    (s : LinesState) (ch : List TopNode) (gcs : List Nat)
    (h1 : s.scene = some ch) (h2 : findGroup ch = some gcs) :
    (createLines locs conns s).lines = arcsFrom locs conns s.nextId
    ∧ (createLines locs conns s).scene = some (setGroup ch
        (s.lines.foldl (fun cs l => cs.erase l.id) gcs
          ++ (arcsFrom locs conns s.nextId).map LineArc.id))
    ∧ (createLines locs conns s).pendingLoops = s.pendingLoops + 1
    ∧ (createLines locs conns s).nextId =
        s.nextId + (arcsFrom locs conns s.nextId).length := by
  obtain ⟨sc, ls, prog, pend, nid⟩ := s
  simp only at h1
  subst h1
  obtain ⟨e1, e2, e3⟩ := addLines_spec locs conns 0
    ⟨ls.foldl (fun cs l => cs.erase l.id) gcs, [], prog, nid⟩
  simp only at e1 e2 e3
  simp [createLines, h2, e1, e2, e3]

theorem bezierPoint_zero (p0 p1 p2 : Vector3) : bezierPoint p0 p1 p2 0 = p0 := by
  cases p0; cases p1; cases p2
  simp only [bezierPoint, vadd, vsmul, Vector3.mk.injEq]
  refine ⟨by ring, by ring, by ring⟩

theorem bezierPoint_one (p0 p1 p2 : Vector3) : bezierPoint p0 p1 p2 1 = p2 := by
  cases p0; cases p1; cases p2
  simp only [bezierPoint, vadd, vsmul, Vector3.mk.injEq]
  refine ⟨by ring, by ring, by ring⟩

theorem curveGetPoints_getElem_zero (p0 p1 p2 : Vector3) (n : Nat) :
    (curveGetPoints p0 p1 p2 n)[0]? = some p0 := by
  rw [curveGetPoints, List.getElem?_map, List.getElem?_range (Nat.succ_pos n),
    Option.map_some']
  rw [Nat.cast_zero, zero_div, bezierPoint_zero]

theorem curveGetPoints_getElem_fifty (p0 p1 p2 : Vector3) :
    (curveGetPoints p0 p1 p2 50)[50]? = some p2 := by
  rw [curveGetPoints, List.getElem?_map,
    List.getElem?_range (by norm_num : (50 : Nat) < 50 + 1), Option.map_some']
  have h : ((50 : Nat) : ℝ) / ((50 : Nat) : ℝ) = 1 := by norm_num
  rw [h, bezierPoint_one]

/-- The first of the 51 sampled points of an arc is the projected `from`
endpoint (the Bezier curve at `t = 0`). -/
theorem arcPoints_getElem_zero (f t : Location) :
    (arcPoints f t)[0]? = some (latLngToVector3 f.lat f.lng 0.92) := by
  rw [arcPoints]
  exact curveGetPoints_getElem_zero _ _ _ 50

/-- The last of the 51 sampled points of an arc is the projected `to`
endpoint (the Bezier curve at `t = 1`). -/
theorem arcPoints_getElem_fifty (f t : Location) :
    (arcPoints f t)[50]? = some (latLngToVector3 t.lat t.lng 0.92) := by
  rw [arcPoints]
  exact curveGetPoints_getElem_fifty _ _ _

/-! ## Claims -/

/-- Claim C1: during Scene Host initialization, the Globe Group is created
and added to the scene before the scene handle is published to the child
layers: at every state observable on the single-threaded event loop (the
code between the suspension points of `initScene` runs atomically, so the
observable states are the three `InitPhase` points), a non-null published
scene handle implies the structural search for the Globe Group succeeds,
so a child-layer rebuild triggered by the scene becoming available always
finds the group. -/
theorem published_scene_contains_group (p : InitPhase) (ch : List TopNode)
    (h : (hostStateAt p).sceneHandle = some ch) :
    ∃ cs, findGroup ch = some cs := by
  cases p with
  | beforeInit => simp [hostStateAt, hostInit] at h
  | afterSyncSetup =>
      have hch : ch = [TopNode.group []] := by
        simpa [hostStateAt, initBlock1] using h.symm
      subst hch
      exact ⟨[], rfl⟩
  | afterTextureLoad =>
      have hch : ch = [TopNode.group [sphereId], TopNode.lightNode 1,
          TopNode.lightNode 2] := by
        simpa [hostStateAt, initBlock1, initBlock2, hostInit, findGroup,
          setGroup, sphereId] using h.symm
      subst hch
      exact ⟨[sphereId], rfl⟩

/-- Witness for C1 at the suspension-point state. -/
theorem published_scene_contains_group_witness :
    (hostStateAt InitPhase.afterSyncSetup).sceneHandle = some [TopNode.group []]
    ∧ ∃ cs, findGroup [TopNode.group []] = some cs :=
  ⟨rfl, published_scene_contains_group InitPhase.afterSyncSetup [TopNode.group []] rfl⟩

/-- Claim C2: for every radius `R` the shared projection maps `lat=0, lng=0`
to exactly `(R, 0, 0)`, and maps `lat=90` (north pole) to exactly `(0, R, 0)`
for every longitude. -/
theorem projection_origin_and_pole (R lng : ℝ) :
    latLngToVector3 0 0 R = ⟨R, 0, 0⟩ ∧ latLngToVector3 90 lng R = ⟨0, R, 0⟩ := by
  constructor
  · have h1 : ((90 : ℝ) - 0) * (Real.pi / 180) = Real.pi / 2 := by ring
    have h2 : ((0 : ℝ) + 180) * (Real.pi / 180) = Real.pi := by ring
    simp only [latLngToVector3, h1, h2, Real.sin_pi_div_two, Real.cos_pi_div_two,
      Real.sin_pi, Real.cos_pi, Vector3.mk.injEq]
    norm_num
  · have h1 : ((90 : ℝ) - 90) * (Real.pi / 180) = 0 := by ring
    simp only [latLngToVector3, h1, Real.sin_zero, Real.cos_zero, Vector3.mk.injEq]
    norm_num

/-- Claim C10: for every `lat`, `lng` and `r ≥ 0` the Euclidean norm of
`latLngToVector3 lat lng r` is exactly `r`; consequently every marker
position and every arc endpoint (the first and the last of the 51 sampled
points) produced at radius `0.92` lies exactly on the sphere of radius
`0.92`, for arbitrary `lat`/`lng` inputs. -/
theorem projection_on_sphere :
    (∀ lat lng r : ℝ, 0 ≤ r → norm3 (latLngToVector3 lat lng r) = r)
    ∧ (∀ (locs : List Location) (s : MarkersState) (ch : List TopNode)
        (gcs : List Nat), s.scene = some ch → findGroup ch = some gcs →
        ∀ m ∈ (createMarkers locs s).markers, norm3 m.position = 0.92)
    ∧ (∀ (locs : List Location) (conns : List Connection) (t : LinesState)
        (ch : List TopNode) (gcs : List Nat),
        t.scene = some ch → findGroup ch = some gcs →
        ∀ a ∈ (createLines locs conns t).lines,
          (∃ p, a.points[0]? = some p ∧ norm3 p = 0.92)
          ∧ (∃ q, a.points[50]? = some q ∧ norm3 q = 0.92)) := by
  have main : ∀ lat lng r : ℝ, 0 ≤ r → norm3 (latLngToVector3 lat lng r) = r := by
    intro lat lng r hr
    have hθ := Real.sin_sq_add_cos_sq ((lng + 180) * (Real.pi / 180))
    have hφ := Real.sin_sq_add_cos_sq ((90 - lat) * (Real.pi / 180))
    simp only [norm3, latLngToVector3]
    rw [show (-r * Real.sin ((90 - lat) * (Real.pi / 180)) *
          Real.cos ((lng + 180) * (Real.pi / 180))) ^ 2
        + (r * Real.cos ((90 - lat) * (Real.pi / 180))) ^ 2
        + (r * Real.sin ((90 - lat) * (Real.pi / 180)) *
          Real.sin ((lng + 180) * (Real.pi / 180))) ^ 2 = r ^ 2 from by
      linear_combination
        (r ^ 2 * Real.sin ((90 - lat) * (Real.pi / 180)) ^ 2) * hθ + r ^ 2 * hφ]
    exact Real.sqrt_sq hr
  refine ⟨main, ?_, ?_⟩
  · intro locs s ch gcs h1 h2 m hm
    have hmark : (createMarkers locs s).markers = markersFrom locs s.nextId := by
      rw [createMarkers_some locs s ch gcs h1 h2]
    rw [hmark] at hm
    have hpos : m.position ∈ (markersFrom locs s.nextId).map Marker.position :=
      List.mem_map_of_mem _ hm
    rw [markersFrom_map_position] at hpos
    obtain ⟨l, _, hl⟩ := List.mem_map.mp hpos
    rw [← hl]
    exact main l.lat l.lng 0.92 (by norm_num)
  · intro locs conns t ch gcs h1 h2 a ha
    obtain ⟨e1, _, _, _⟩ := createLines_some locs conns t ch gcs h1 h2
    rw [e1] at ha
    obtain ⟨f, t2, hpts⟩ := arcsFrom_mem_points locs conns t.nextId a ha
    rw [hpts]
    exact ⟨⟨_, arcPoints_getElem_zero f t2, main f.lat f.lng 0.92 (by norm_num)⟩,
      ⟨_, arcPoints_getElem_fifty f t2, main t2.lat t2.lng 0.92 (by norm_num)⟩⟩

/-- Witness for C10 at concrete inputs. -/
theorem projection_on_sphere_witness :
    ((0 : ℝ) ≤ 2 ∧ norm3 (latLngToVector3 30 40 2) = 2)
    ∧ (emptyMarkersState.scene = some [TopNode.group []]
        ∧ ∀ m ∈ (createMarkers demoLocationsAB emptyMarkersState).markers,
            norm3 m.position = 0.92) :=
  ⟨⟨by norm_num, projection_on_sphere.1 30 40 2 (by norm_num)⟩,
    ⟨rfl, projection_on_sphere.2.1 demoLocationsAB emptyMarkersState
      [TopNode.group []] [] rfl rfl⟩⟩

/-- Claim C3: with the scene and Globe Group present, the Line Layer rebuild
builds exactly one arc per connection whose two endpoint names both resolve,
in input order, and silently skips every unresolved connection (the rebuild
is a total function: it raises no error); in particular with locations
`[A, B]` and connections `[{from: A, to: C}]` it produces zero arc
visuals. -/
theorem line_rebuild_skips_unresolved (locs : List Location)
    (conns : List Connection) (t : LinesState) (ch : List TopNode)
    (gcs : List Nat) (h1 : t.scene = some ch) (h2 : findGroup ch = some gcs) :
    ((createLines locs conns t).lines.map (fun l => (l.fromName, l.toName)) =
      (conns.filter (fun c => (resolveConn locs c).isSome)).map
        (fun c => (c.«from», c.«to»)))
    ∧ (createLines demoLocationsAB demoConnAC emptyLinesState).lines = [] := by
  constructor
  · obtain ⟨e1, _, _, _⟩ := createLines_some locs conns t ch gcs h1 h2
    rw [e1, arcsFrom_names]
  · rfl

/-- Witness for C3 at concrete inputs. -/
theorem line_rebuild_skips_unresolved_witness :
    emptyLinesState.scene = some [TopNode.group []]
    ∧ findGroup [TopNode.group []] = some []
    ∧ (((createLines demoLocationsAB demoConnAC emptyLinesState).lines.map
          (fun l => (l.fromName, l.toName)) =
        (demoConnAC.filter
          (fun c => (resolveConn demoLocationsAB c).isSome)).map
            (fun c => (c.«from», c.«to»)))
        ∧ (createLines demoLocationsAB demoConnAC emptyLinesState).lines = []) :=
  ⟨rfl, rfl, line_rebuild_skips_unresolved demoLocationsAB demoConnAC
    emptyLinesState [TopNode.group []] [] rfl rfl⟩

/-- Claim C4: with the scene and Globe Group present, a Marker Layer rebuild
with a locations list of length `N` (duplicates allowed) leaves exactly `N`
entries in the marker collection, and each created marker grouping node is a
child of the Globe Group. -/
theorem marker_rebuild_count_and_attach (locs : List Location)
    (s : MarkersState) (ch : List TopNode) (gcs : List Nat)
    (h1 : s.scene = some ch) (h2 : findGroup ch = some gcs) :
    (createMarkers locs s).markers.length = locs.length
    ∧ ∀ m ∈ (createMarkers locs s).markers,
        m.id ∈ groupChildrenOf (createMarkers locs s).scene := by
  have hmark : (createMarkers locs s).markers = markersFrom locs s.nextId := by
    rw [createMarkers_some locs s ch gcs h1 h2]
  have hscene : (createMarkers locs s).scene = some (setGroup ch
      (s.markers.foldl (fun cs m => cs.erase m.id) gcs
        ++ (markersFrom locs s.nextId).map Marker.id)) := by
    rw [createMarkers_some locs s ch gcs h1 h2]
  constructor
  · rw [hmark, markersFrom_length]
  · intro m hm
    rw [hmark] at hm
    rw [hscene]
    simp only [groupChildrenOf]
    rw [findGroup_setGroup ch _ gcs h2, Option.getD_some]
    exact List.mem_append_right _ (List.mem_map_of_mem _ hm)

/-- Witness for C4 at concrete inputs. -/
theorem marker_rebuild_count_and_attach_witness :
    emptyMarkersState.scene = some [TopNode.group []]
    ∧ findGroup [TopNode.group []] = some []
    ∧ ((createMarkers demoLocationsAB emptyMarkersState).markers.length =
          demoLocationsAB.length
        ∧ ∀ m ∈ (createMarkers demoLocationsAB emptyMarkersState).markers,
            m.id ∈ groupChildrenOf
              (createMarkers demoLocationsAB emptyMarkersState).scene) :=
  ⟨rfl, rfl, marker_rebuild_count_and_attach demoLocationsAB emptyMarkersState
    [TopNode.group []] [] rfl rfl⟩

/-- Claim C6 (the code violates it): starting the Line Layer's animation loop
is not idempotent.  `createLines` ends with an unconditional `animate()` call;
each such call starts a self-rescheduling `requestAnimationFrame` chain, no
previous chain is ever cancelled by a rebuild, and `animationFrameId` only
remembers the latest chain.  In the model `pendingLoops` counts the scheduled
chains: one rebuild leaves one loop, a second rebuild without intervening
teardown leaves two concurrently scheduled loops, violating the claimed
"at most one loop" invariant. -/
theorem double_rebuild_stacks_two_loops :
    (createLines demoLocationsAB demoConnAC emptyLinesState).pendingLoops = 1
    ∧ (createLines demoLocationsAB demoConnAC
        (createLines demoLocationsAB demoConnAC
          emptyLinesState)).pendingLoops = 2 :=
  ⟨rfl, rfl⟩

theorem foldl_erase_fresh_append {β : Type} (f : β → Nat) (bs : List β) :
    ∀ gcs : List Nat, (∀ b ∈ bs, f b ∉ gcs) → (bs.map f).Nodup →
      bs.foldl (fun cs b => cs.erase (f b)) (gcs ++ bs.map f) = gcs := by
  induction bs with
  | nil => intro gcs _ _; simp
  | cons b rest ih =>
    intro gcs hfresh hnd
    rw [List.map_cons, List.nodup_cons] at hnd
    obtain ⟨hni, hndr⟩ := hnd
    have h1 : (gcs ++ f b :: rest.map f).erase (f b) = gcs ++ rest.map f := by
      rw [List.erase_append_right _ (hfresh b (by simp))]
      simp
    rw [List.map_cons, List.foldl_cons, h1]
    exact ih gcs (fun j hj => hfresh j (by simp [hj])) hndr

theorem foldl_erase_mem_poly {β : Type} (f : β → Nat) (bs : List β) :
    ∀ (gcs : List Nat) (a : Nat),
      a ∈ bs.foldl (fun cs b => cs.erase (f b)) gcs → a ∈ gcs := by
  induction bs with
  | nil => intro gcs a h; simpa using h
  | cons b rest ih =>
    intro gcs a h
    rw [List.foldl_cons] at h
    exact List.erase_subset (f b) gcs (ih (gcs.erase (f b)) a h)

/-- Running `createMarkers` twice: the second run erases exactly the ids the
first run added (they are fresh with respect to the surviving foreign ids),
so the group children are the surviving foreign ids plus one fresh batch. -/
theorem createMarkers_twice_spec (locs : List Location) (s : MarkersState)
    (ch : List TopNode) (gcs : List Nat)
    (h1 : s.scene = some ch) (h2 : findGroup ch = some gcs)
    (h3 : ∀ a ∈ gcs, a < s.nextId) :
    (createMarkers locs (createMarkers locs s)).markers =
      markersFrom locs (s.nextId + locs.length)
    ∧ groupChildrenOf (createMarkers locs (createMarkers locs s)).scene =
        s.markers.foldl (fun cs m => cs.erase m.id) gcs
          ++ (markersFrom locs (s.nextId + locs.length)).map Marker.id
    ∧ groupChildrenOf (createMarkers locs s).scene =
        s.markers.foldl (fun cs m => cs.erase m.id) gcs
          ++ (markersFrom locs s.nextId).map Marker.id := by
  have e1 := createMarkers_some locs s ch gcs h1 h2
  have hm1 : (createMarkers locs s).markers = markersFrom locs s.nextId := by
    rw [e1]
  have hn1 : (createMarkers locs s).nextId = s.nextId + locs.length := by
    rw [e1]
  have hs1 : (createMarkers locs s).scene = some (setGroup ch
      (s.markers.foldl (fun cs m => cs.erase m.id) gcs
        ++ (markersFrom locs s.nextId).map Marker.id)) := by
    rw [e1]
  have hfg1 : findGroup (setGroup ch
      (s.markers.foldl (fun cs m => cs.erase m.id) gcs
        ++ (markersFrom locs s.nextId).map Marker.id)) =
      some (s.markers.foldl (fun cs m => cs.erase m.id) gcs
        ++ (markersFrom locs s.nextId).map Marker.id) :=
    findGroup_setGroup ch _ gcs h2
  have e2 := createMarkers_some locs (createMarkers locs s) _ _ hs1 hfg1
  have hfold : (createMarkers locs s).markers.foldl
      (fun cs m => cs.erase m.id)
      (s.markers.foldl (fun cs m => cs.erase m.id) gcs
        ++ (markersFrom locs s.nextId).map Marker.id) =
      s.markers.foldl (fun cs m => cs.erase m.id) gcs := by
    rw [hm1]
    refine foldl_erase_fresh_append Marker.id (markersFrom locs s.nextId) _
      ?_ (markersFrom_ids_nodup locs s.nextId)
    intro m hm hmem
    have hge := markersFrom_id_ge locs s.nextId m hm
    have hlt := h3 m.id (foldl_erase_mem_poly Marker.id s.markers gcs m.id hmem)
    omega
  refine ⟨?_, ?_, ?_⟩
  · rw [e2, hn1]
  · rw [e2]
    simp only [groupChildrenOf]
    rw [findGroup_setGroup _ _ _ hfg1, Option.getD_some, hfold, hn1]
  · rw [hs1]
    simp only [groupChildrenOf]
    rw [hfg1, Option.getD_some]

/-- Running `createLines` twice, analogously. -/
theorem createLines_twice_spec (locs : List Location) (conns : List Connection)
    (t : LinesState) (ch : List TopNode) (gcs : List Nat)
    (g1 : t.scene = some ch) (g2 : findGroup ch = some gcs)
    (g3 : ∀ a ∈ gcs, a < t.nextId) :
    (createLines locs conns (createLines locs conns t)).lines =
      arcsFrom locs conns (createLines locs conns t).nextId
    ∧ groupChildrenOf (createLines locs conns (createLines locs conns t)).scene =
        t.lines.foldl (fun cs l => cs.erase l.id) gcs
          ++ (arcsFrom locs conns (createLines locs conns t).nextId).map LineArc.id
    ∧ groupChildrenOf (createLines locs conns t).scene =
        t.lines.foldl (fun cs l => cs.erase l.id) gcs
          ++ (arcsFrom locs conns t.nextId).map LineArc.id := by
  obtain ⟨e1l, e1s, _, e1n⟩ := createLines_some locs conns t ch gcs g1 g2
  have hfg1 : findGroup (setGroup ch
      (t.lines.foldl (fun cs l => cs.erase l.id) gcs
        ++ (arcsFrom locs conns t.nextId).map LineArc.id)) =
      some (t.lines.foldl (fun cs l => cs.erase l.id) gcs
        ++ (arcsFrom locs conns t.nextId).map LineArc.id) :=
    findGroup_setGroup ch _ gcs g2
  obtain ⟨e2l, e2s, _, e2n⟩ :=
    createLines_some locs conns (createLines locs conns t) _ _ e1s hfg1
  have hfold : (createLines locs conns t).lines.foldl
      (fun cs l => cs.erase l.id)
      (t.lines.foldl (fun cs l => cs.erase l.id) gcs
        ++ (arcsFrom locs conns t.nextId).map LineArc.id) =
      t.lines.foldl (fun cs l => cs.erase l.id) gcs := by
    rw [e1l]
    refine foldl_erase_fresh_append LineArc.id (arcsFrom locs conns t.nextId) _
      ?_ (arcsFrom_ids_nodup locs conns t.nextId)
    intro a ha hmem
    have hge := arcsFrom_id_ge locs conns t.nextId a ha
    have hlt := g3 a.id (foldl_erase_mem_poly LineArc.id t.lines gcs a.id hmem)
    omega
  refine ⟨e2l, ?_, ?_⟩
  · rw [e2s]
    simp only [groupChildrenOf]
    rw [findGroup_setGroup _ _ _ hfg1, Option.getD_some, hfold]
  · rw [e1s]
    simp only [groupChildrenOf]
    rw [hfg1, Option.getD_some]

/-- Claim C5: rebuild is idempotent.  With the scene and Globe Group present
(and the ids already under the group older than the layer's id supply, the
counterpart of JavaScript object-identity freshness), rebuilding twice with
identical props yields a marker/arc collection of the same size and the same
visual positions (marker positions, arc sample points) as rebuilding once,
and the Globe Group's child count is also unchanged: every previously created
visual is removed before the new ones are added, so nothing accumulates. -/
theorem rebuild_idempotent (locs : List Location) (conns : List Connection)
    (s : MarkersState) (ch : List TopNode) (gcs : List Nat)
    (h1 : s.scene = some ch) (h2 : findGroup ch = some gcs)
    (h3 : ∀ a ∈ gcs, a < s.nextId)
    (t : LinesState) (ch2 : List TopNode) (gcs2 : List Nat)
    (g1 : t.scene = some ch2) (g2 : findGroup ch2 = some gcs2)
    (g3 : ∀ a ∈ gcs2, a < t.nextId) :
    ((createMarkers locs (createMarkers locs s)).markers.length =
        (createMarkers locs s).markers.length
      ∧ (createMarkers locs (createMarkers locs s)).markers.map Marker.position =
          (createMarkers locs s).markers.map Marker.position
      ∧ (groupChildrenOf (createMarkers locs (createMarkers locs s)).scene).length =
          (groupChildrenOf (createMarkers locs s).scene).length)
    ∧ ((createLines locs conns (createLines locs conns t)).lines.length =
        (createLines locs conns t).lines.length
      ∧ (createLines locs conns (createLines locs conns t)).lines.map
          LineArc.points =
          (createLines locs conns t).lines.map LineArc.points
      ∧ (groupChildrenOf (createLines locs conns
            (createLines locs conns t)).scene).length =
          (groupChildrenOf (createLines locs conns t).scene).length) := by
  obtain ⟨hm2, hg2, hg1⟩ := createMarkers_twice_spec locs s ch gcs h1 h2 h3
  have hm1 : (createMarkers locs s).markers = markersFrom locs s.nextId := by
    rw [createMarkers_some locs s ch gcs h1 h2]
  obtain ⟨lm2, lg2, lg1⟩ := createLines_twice_spec locs conns t ch2 gcs2 g1 g2 g3
  have lm1 : (createLines locs conns t).lines = arcsFrom locs conns t.nextId :=
    (createLines_some locs conns t ch2 gcs2 g1 g2).1
  refine ⟨⟨?_, ?_, ?_⟩, ?_, ?_, ?_⟩
  · rw [hm2, hm1, markersFrom_length, markersFrom_length]
  · rw [hm2, hm1, markersFrom_map_position, markersFrom_map_position]
  · rw [hg2, hg1]
    simp [markersFrom_length]
  · rw [lm2, lm1]
    exact arcsFrom_length_indep locs conns _ _
  · rw [lm2, lm1]
    exact arcsFrom_map_points locs conns _ _
  · rw [lg2, lg1]
    simp only [List.length_append, List.length_map]
    rw [arcsFrom_length_indep locs conns (createLines locs conns t).nextId t.nextId]

/-- Witness for C5 at concrete inputs. -/
theorem rebuild_idempotent_witness :
    emptyMarkersState.scene = some [TopNode.group []]
    ∧ (∀ a ∈ ([] : List Nat), a < emptyMarkersState.nextId)
    ∧ emptyLinesState.scene = some [TopNode.group []]
    ∧ (((createMarkers demoLocationsAB
          (createMarkers demoLocationsAB emptyMarkersState)).markers.length =
        (createMarkers demoLocationsAB emptyMarkersState).markers.length
      ∧ (createMarkers demoLocationsAB
          (createMarkers demoLocationsAB emptyMarkersState)).markers.map
            Marker.position =
          (createMarkers demoLocationsAB emptyMarkersState).markers.map
            Marker.position
      ∧ (groupChildrenOf (createMarkers demoLocationsAB
            (createMarkers demoLocationsAB emptyMarkersState)).scene).length =
          (groupChildrenOf
            (createMarkers demoLocationsAB emptyMarkersState).scene).length)
    ∧ ((createLines demoLocationsAB demoConnAC
          (createLines demoLocationsAB demoConnAC emptyLinesState)).lines.length =
        (createLines demoLocationsAB demoConnAC emptyLinesState).lines.length
      ∧ (createLines demoLocationsAB demoConnAC
          (createLines demoLocationsAB demoConnAC emptyLinesState)).lines.map
            LineArc.points =
          (createLines demoLocationsAB demoConnAC emptyLinesState).lines.map
            LineArc.points
      ∧ (groupChildrenOf (createLines demoLocationsAB demoConnAC
            (createLines demoLocationsAB demoConnAC
              emptyLinesState)).scene).length =
          (groupChildrenOf (createLines demoLocationsAB demoConnAC
            emptyLinesState).scene).length)) :=
  ⟨rfl, by simp, rfl,
    rebuild_idempotent demoLocationsAB demoConnAC emptyMarkersState
      [TopNode.group []] [] rfl rfl (by simp)
      emptyLinesState [TopNode.group []] [] rfl rfl (by simp)⟩

/-- Counterexample to claim C7 as stated: with no marker built, calling
`setMarkerHovered(0, true)` is not a no-op — it records hovered index `0`
(previously absent) and switches the cursor to `pointer` (previously
`auto`). -/
theorem hover_out_of_range_mutates :
    (handleMarkerHover 0 true emptyMarkersState).hoveredMarker ≠
      emptyMarkersState.hoveredMarker
    ∧ (handleMarkerHover 0 true emptyMarkersState).cursor ≠
      emptyMarkersState.cursor := by
  constructor
  · simp [handleMarkerHover, recolorMarker, emptyMarkersState]
  · simp [handleMarkerHover, recolorMarker, emptyMarkersState]

/-- Claim C7 as amended: for an index with no corresponding marker, the call
raises no error and performs no material recolor (the marker collection is
unchanged), but it is not a complete no-op: with `isHovered = true` it still
records the hovered index and sets the pointer cursor, and with
`isHovered = false` it clears the record and restores the default cursor. -/
theorem hover_missing_marker (i : Nat) (s : MarkersState)
    (h : s.markers[i]? = none) :
    ((handleMarkerHover i true s).markers = s.markers
      ∧ (handleMarkerHover i true s).hoveredMarker = some i
      ∧ (handleMarkerHover i true s).cursor = "pointer")
    ∧ ((handleMarkerHover i false s).markers = s.markers
      ∧ (handleMarkerHover i false s).hoveredMarker = none
      ∧ (handleMarkerHover i false s).cursor = "auto") := by
  simp [handleMarkerHover, recolorMarker, h]

/-- Witness for C7 (amended) at a concrete state. -/
theorem hover_missing_marker_witness :
    emptyMarkersState.markers[0]? = none
    ∧ (((handleMarkerHover 0 true emptyMarkersState).markers =
          emptyMarkersState.markers
        ∧ (handleMarkerHover 0 true emptyMarkersState).hoveredMarker = some 0
        ∧ (handleMarkerHover 0 true emptyMarkersState).cursor = "pointer")
      ∧ ((handleMarkerHover 0 false emptyMarkersState).markers =
          emptyMarkersState.markers
        ∧ (handleMarkerHover 0 false emptyMarkersState).hoveredMarker = none
        ∧ (handleMarkerHover 0 false emptyMarkersState).cursor = "auto")) :=
  ⟨rfl, hover_missing_marker 0 emptyMarkersState rfl⟩

/-- Claim C8: hover toggling is a round trip.  For an index with a marker
present, `setMarkerHovered(i, true)` followed by `setMarkerHovered(i, false)`
leaves that marker's sphere material color at `#d5aa0f`, the hovered-index
record absent, and every marker position unchanged. -/
theorem hover_round_trip (i : Nat) (s : MarkersState) (m : Marker)
    (h : s.markers[i]? = some m) :
    (handleMarkerHover i false (handleMarkerHover i true s)).markers[i]? =
      some ⟨m.id, m.position, "#d5aa0f"⟩
    ∧ (handleMarkerHover i false (handleMarkerHover i true s)).hoveredMarker =
        none
    ∧ (handleMarkerHover i false (handleMarkerHover i true s)).markers.map
        Marker.position = s.markers.map Marker.position := by
  obtain ⟨hlen, -⟩ := List.getElem?_eq_some.mp h
  have e1 : handleMarkerHover i true s =
      { s with
        hoveredMarker := some i
        cursor := "pointer"
        markers := s.markers.set i ⟨m.id, m.position, "#FFC857"⟩ } := by
    simp [handleMarkerHover, recolorMarker, h]
  have hmid : (s.markers.set i ⟨m.id, m.position, "#FFC857"⟩)[i]? =
      some ⟨m.id, m.position, "#FFC857"⟩ :=
    List.getElem?_set_eq_of_lt _ hlen
  have e2 : handleMarkerHover i false (handleMarkerHover i true s) =
      { s with
        hoveredMarker := none
        cursor := "auto"
        markers := s.markers.set i ⟨m.id, m.position, "#d5aa0f"⟩ } := by
    rw [e1]
    simp [handleMarkerHover, recolorMarker, hmid, List.set_set]
  rw [e2]
  refine ⟨List.getElem?_set_eq_of_lt _ hlen, rfl, ?_⟩
  simp only [List.map_set]
  refine list_set_self _ i m.position ?_
  rw [List.getElem?_map, h, Option.map_some']

/-- Witness for C8 at a concrete state with one marker. -/
theorem hover_round_trip_witness :
    oneMarkerState.markers[0]? = some ⟨7, ⟨1, 0, 0⟩, "#d5aa0f"⟩
    ∧ ((handleMarkerHover 0 false
          (handleMarkerHover 0 true oneMarkerState)).markers[0]? =
        some ⟨7, ⟨1, 0, 0⟩, "#d5aa0f"⟩
      ∧ (handleMarkerHover 0 false
          (handleMarkerHover 0 true oneMarkerState)).hoveredMarker = none
      ∧ (handleMarkerHover 0 false
          (handleMarkerHover 0 true oneMarkerState)).markers.map
            Marker.position = oneMarkerState.markers.map Marker.position) :=
  ⟨rfl, hover_round_trip 0 oneMarkerState ⟨7, ⟨1, 0, 0⟩, "#d5aa0f"⟩ rfl⟩

/-- Claim C9: camera auto-framing with a single location at lat=0, lng=0 and
constructed controls sets the camera position to exactly `(2.74, 0, 0)` (the
unit-radius projection scaled by `2.74`, with no normalization of the
average), aims the camera at the origin, and sets the controls orbit target
to the origin; it is a no-op when the locations list is empty or the
controls are not yet constructed. -/
theorem focus_framing :
    (∀ (s : FocusState) (nm : String) (cam : Camera) (ctr : Controls),
      s.locations = [⟨nm, 0, 0⟩] → s.camera = some cam → s.controls = some ctr →
        (focusOnMarkers s).camera = some ⟨⟨2.74, 0, 0⟩, ⟨0, 0, 0⟩⟩
        ∧ (focusOnMarkers s).controls = some ⟨⟨0, 0, 0⟩⟩)
    ∧ (∀ s : FocusState, s.locations = [] → focusOnMarkers s = s)
    ∧ (∀ s : FocusState, s.controls = none → focusOnMarkers s = s) := by
  refine ⟨?_, ?_, ?_⟩
  · intro s nm cam ctr hloc hcam hctr
    have hdir : unitDirection ⟨nm, 0, 0⟩ = ⟨1, 0, 0⟩ := by
      have hp : ((90 : ℝ) - 0) * (Real.pi / 180) = Real.pi / 2 := by ring
      have ht : ((0 : ℝ) + 180) * (Real.pi / 180) = Real.pi := by ring
      simp only [unitDirection, hp, ht, Real.sin_pi_div_two, Real.cos_pi_div_two,
        Real.sin_pi, Real.cos_pi, Vector3.mk.injEq]
      norm_num
    obtain ⟨locs, camera, controls⟩ := s
    simp only at hloc hcam hctr
    subst hloc
    subst hcam
    subst hctr
    simp only [focusOnMarkers, List.isEmpty_cons, Bool.false_eq_true, if_false,
      List.map_cons, List.map_nil, List.foldl_cons, List.foldl_nil, hdir]
    constructor
    · rw [Option.map_some']
      simp only [Option.some.injEq]
      have : vadd ⟨0, 0, 0⟩ (⟨1, 0, 0⟩ : Vector3) = ⟨1, 0, 0⟩ := by
        simp [vadd]
      rw [this]
      simp only [vsmul, List.length_cons, List.length_nil, Camera.mk.injEq,
        Vector3.mk.injEq]
      norm_num
    · trivial
  · intro s h
    obtain ⟨locs, camera, controls⟩ := s
    simp only at h
    subst h
    simp [focusOnMarkers]
  · intro s h
    obtain ⟨locs, camera, controls⟩ := s
    simp only at h
    subst h
    cases hE : locs.isEmpty
    all_goals simp [focusOnMarkers, hE]

/-- Witness for C9 at a concrete state. -/
theorem focus_framing_witness :
    demoFocusState.locations = [⟨"A", 0, 0⟩]
    ∧ demoFocusState.camera = some ⟨⟨0, 0, 2.5⟩, ⟨0, 0, 0⟩⟩
    ∧ demoFocusState.controls = some ⟨⟨0, 0, 0⟩⟩
    ∧ ((focusOnMarkers demoFocusState).camera =
        some ⟨⟨2.74, 0, 0⟩, ⟨0, 0, 0⟩⟩
      ∧ (focusOnMarkers demoFocusState).controls = some ⟨⟨0, 0, 0⟩⟩) :=
  ⟨rfl, rfl, rfl, focus_framing.1 demoFocusState "A" ⟨⟨0, 0, 2.5⟩, ⟨0, 0, 0⟩⟩
    ⟨⟨0, 0, 0⟩⟩ rfl rfl rfl⟩

end Globe
